import Mathlib

/-!
Verification development for the aind-smartspim-external-dispatcher
repository (src/code/run_capsule.py and src/code/utils/utils.py).

The Python code is shallowly embedded: pure helpers become Lean
functions, dictionary-mutating loops become explicit state passing,
filesystem reads and schema validation (an external, opaque service per
the code's imports of aind_data_schema) become explicit environment
parameters, and raised exceptions become Except / Option results.
-/

namespace SmartspimDispatcher

/- ### Channel Color Mapper (run_capsule.py, wavelength_to_hex and
wavelength_to_hex_alternate)

Python iterates over the insertion-ordered dict `color_map`; the loop
variable `hex_val` retains the last visited entry's value after the loop
falls through, which is what the trailing `return hex_val` returns.  We
embed the dict as an association list in insertion order and carry the
previously visited value through the recursion (`last`).  Wavelengths
are Python ints, embedded as Int. -/

/-- One scan of the color table: return the value of the first entry
whose key strictly exceeds the wavelength (`wavelength < ub`, the
"Exclusive" comparison in `wavelength_to_hex`); falling off the end
returns the last entry's value, exactly like the Python `return hex_val`
after the `for` loop. -/
def colorScanExclusive (w : Int) (last : Nat) : List (Int × Nat) → Nat
  | [] => last
  | (ub, hexVal) :: rest =>
    if w < ub then hexVal else colorScanExclusive w hexVal rest

/-- Same scan with the inclusive comparison `wavelength <= ub` used by
`wavelength_to_hex_alternate`. -/
def colorScanInclusive (w : Int) (last : Nat) : List (Int × Nat) → Nat
  | [] => last
  | (ub, hexVal) :: rest =>
    if w ≤ ub then hexVal else colorScanInclusive w hexVal rest

/-- The `color_map` dict of `wavelength_to_hex`, in insertion order. -/
def color_map_exclusive : List (Int × Nat) :=
  [ (460, 0x690AFE),  -- Purple
    (470, 0x3F2EFE),  -- Blue-Purple
    (480, 0x4B90FE),  -- Blue
    (490, 0x59D5F8),  -- Blue-Green
    (500, 0x5DF8D6),  -- Green
    (520, 0x5AFEB8),  -- Green
    (540, 0x58FEA1),  -- Green
    (560, 0x51FF1E),  -- Green
    (565, 0xBBFB01),  -- Green-Yellow
    (575, 0xE9EC02),  -- Yellow
    (580, 0xF5C503),  -- Yellow-Orange
    (590, 0xF39107),  -- Orange
    (600, 0xF15211),  -- Orange-Red
    (620, 0xF0121E),  -- Red
    (750, 0xF00050) ] -- Pink

/-- The fpbase-derived `color_map` dict of
`wavelength_to_hex_alternate`, in insertion order. -/
def color_map_inclusive : List (Int × Nat) :=
  [ (500, 0x61ABFD),  -- RUDDY BLUE, mTFP/mTurquoise
    (530, 0x92FF42),  -- CHARTREUSE, EGFP
    (540, 0xE4FE41),  -- CHARTREUSE, SYFP2
    (560, 0xF3D038),  -- MUSTARD, mBanana
    (580, 0xEAB032),  -- XANTHOUS, mOrange
    (600, 0xF15F22),  -- GIANTS ORANGE, tdTomato/mScarlet
    (630, 0xED1C24),  -- RED, mCherry
    (680, 0xC51E1F),  -- FIRE ENGINE RED, mRaspberry
    (700, 0xA81F1F) ] -- FIRE BRICK, mPlum

/-- `wavelength_to_hex` (Variant A, exclusive upper bounds).  The
default 0 for `last` is unreachable on the non-empty concrete table. -/
def wavelength_to_hex (wavelength : Int) : Nat :=
  colorScanExclusive wavelength 0 color_map_exclusive

/-- `wavelength_to_hex_alternate` (Variant B, inclusive upper bounds). -/
def wavelength_to_hex_alternate (wavelength : Int) : Nat :=
  colorScanInclusive wavelength 0 color_map_inclusive

/- ### Provenance Compiler (utils.py, compile_processing_jsons and
generate_processing)

The process-entry payload (aind_data_schema's DataProcess) is opaque to
the compiler, which only concatenates entries, so it is a type
parameter `P`.  Reading a path from disk, parsing it as JSON and
validating it with `TypeAdapter(Processing).validate_python` is an
external service (the spec treats it as opaque validate-and-serialize);
it is modelled as an environment `String → FragmentOutcome P` mapping a
fragment path to either its ordered `data_processes` list or the
exception raised.  Note `read_json_as_dict` returns `{}` for a missing
file, which then fails schema validation, so unreadable fragments are
also `.error` outcomes of the environment. -/

/-- Outcome of reading, parsing and schema-validating one provenance
fragment path: the fragment's ordered process-entry list on success,
the raised exception's message on failure. -/
abbrev FragmentOutcome (P : Type) := Except String (List P)

/-- The accumulation loop of `compile_processing_jsons`: visit the
paths in the given order, read and validate each, and append its
entries to the accumulator `data_processes`; the first failing
fragment raises, aborting the loop. -/
def compileDataProcesses {P : Type} (env : String → FragmentOutcome P)
    (acc : List P) : List String → Except String (List P)
  | [] => .ok acc
  | p :: rest =>
    match env p with
    | .error e => .error e
    | .ok ps => compileDataProcesses env (acc ++ ps) rest

/-- The `PipelineProcess` record built by `generate_processing`. -/
structure PipelineProcessDoc (P : Type) where
  data_processes : List P
  processor_full_name : String
  pipeline_version : String
  pipeline_url : String
  deriving DecidableEq

/-- The top-level `Processing` document built by `generate_processing`. -/
structure ProcessingDoc (P : Type) where
  processing_pipeline : PipelineProcessDoc P
  notes : String
  deriving DecidableEq

/-- A file write performed by `Processing.write_standard_file`: the
merged document serialized into a destination directory. -/
structure WriteEvent (P : Type) where
  directory : String
  doc : ProcessingDoc P
  deriving DecidableEq

/-- `generate_processing`: wrap the accumulated entries in a
`PipelineProcess` with the processor name, pipeline version and fixed
repository URL, wrap that in a `Processing` document with the fixed
note, and write it to the destination directory. -/
def generate_processing {P : Type} (data_processes : List P)
    (dest_processing : String) (processor_full_name : String)
    (pipeline_version : String) : WriteEvent P :=
  { directory := dest_processing
    doc :=
      { processing_pipeline :=
          { data_processes := data_processes
            processor_full_name := processor_full_name
            pipeline_version := pipeline_version
            pipeline_url :=
              "https://github.com/AllenNeuralDynamics/aind-smartspim-pipeline" }
        notes :=
          "This processing was generated by compiling independent processing jsons for every step" } }

/-- `compile_processing_jsons`: run the accumulation loop over the
fragment paths and, only if it succeeds, call `generate_processing`,
whose `write_standard_file` writes the merged document into
`output_general_processing`; the directory is returned.  The second
component records the file writes performed — empty when the loop
raised, because the write happens after the loop. -/
def compile_processing_jsons {P : Type} (env : String → FragmentOutcome P)
    (processing_paths : List String) (output_general_processing : String)
    (processor_full_name : String) (pipeline_version : String) :
    Except String String × List (WriteEvent P) :=
  match compileDataProcesses env [] processing_paths with
  | .error e => (.error e, [])
  | .ok data_processes =>
    let w := generate_processing data_processes output_general_processing
      processor_full_name pipeline_version
    (.ok w.directory, [w])

/-- Concrete two-fragment environment used to witness the merge-order
claim: fragment "A" holds entries 10 and 11, fragment "B" holds 20. -/
def envTwoFragments : String → FragmentOutcome Nat :=
  fun p => if p = "A" then .ok [10, 11] else if p = "B" then .ok [20] else .error "unknown"

/-- The per-fragment entry lists of `envTwoFragments`. -/
def fragTwoFragments : String → List Nat :=
  fun p => if p = "A" then [10, 11] else if p = "B" then [20] else []

/- ### Fragment discovery and the two provenance call sites
(run_capsule.py, clean_up and copy_intermediate_data)

Directory globbing is filesystem-dependent; it is modelled as an
environment `globEnv : String → List String` mapping a glob pattern to
its matches in filesystem enumeration order. -/

/-- The pipeline version constant `PIPELINE_VERSION`. -/
def PIPELINE_VERSION : String := "2.0.2"

/-- Bool-valued infix test on lists, used to embed Python's
`needle in haystack` on strings. -/
def listIsInfix {α : Type} [DecidableEq α] (pat : List α) : List α → Bool
  | [] => pat.isEmpty
  | a :: rest => pat.isPrefixOf (a :: rest) || listIsInfix pat rest

/-- Python's `needle in haystack` substring operator. -/
def pyIn (needle haystack : String) : Bool :=
  listIsInfix needle.toList haystack.toList

/-- Per-stage fragment discovery, the loop shared by `clean_up` and
`copy_intermediate_data`: for each stage folder, glob
`{folder}/metadata/*processing*.json` and drop matches whose path
contains "manifest"; one sublist per folder, in folder order. -/
def stage_processing_jsons (globEnv : String → List String)
    (folders : List String) : List (List String) :=
  folders.map (fun folder =>
    (globEnv (folder ++ "/metadata/*processing*.json")).filter
      (fun p => !(pyIn "manifest" p)))

/-- The Python flattening loop
`for sub_list in combined_processing_list: processing_paths += sub_list`
starting from the empty `processing_paths`. -/
def flattenSublists (combined : List (List String)) : List String :=
  combined.foldl (fun acc l => acc ++ l) []

/-- The ordered fragment-path sequence `clean_up` hands to
`compile_processing_jsons`: the raw-metadata stage's processing file,
then the per-cell-folder fragments, then the per-quantification-folder
fragments, flattened. -/
def clean_up_processing_paths (globEnv : String → List String)
    (data_folder : String) (cell_folders quantification_folders : List String) :
    List String :=
  let segmentation_processing := stage_processing_jsons globEnv cell_folders
  let quantification_processing := stage_processing_jsons globEnv quantification_folders
  flattenSublists ([[data_folder ++ "/output_aind_metadata/processing.json"]]
    ++ segmentation_processing ++ quantification_processing)

/-- The ordered fragment-path sequence `copy_intermediate_data` hands
to `compile_processing_jsons`: the stitch, fuse and ccf per-folder
fragments are flattened and the destripe files are prepended
(`processing_paths = destripe_files + processing_paths`).  The
`flatfield_channels` received by the Python function are copied as
data later but are never searched for provenance fragments, so the
parameter is unused here, exactly as in the source. -/
def copy_intermediate_processing_paths (globEnv : String → List String)
    (destripe_files _flatfield_channels : List String)
    (stitch_folders fuse_folders ccf_folders : List String) : List String :=
  let stitch_processings := stage_processing_jsons globEnv stitch_folders
  let fuse_processings := stage_processing_jsons globEnv fuse_folders
  let ccf_processings := stage_processing_jsons globEnv ccf_folders
  destripe_files ++
    flattenSublists (stitch_processings ++ fuse_processings ++ ccf_processings)

/-- Modelled from the spec's words, for comparison with the code: the
dispatch/copy-mode fragment order the spec asserts — "destripe,
flatfield, stitch, fuse, ccf" — which places the flatfield stage's
fragments between the destripe files and the stitch fragments. -/
def spec_copy_intermediate_processing_paths (globEnv : String → List String)
    (destripe_files flatfield_channels : List String)
    (stitch_folders fuse_folders ccf_folders : List String) : List String :=
  destripe_files ++
    (stage_processing_jsons globEnv flatfield_channels).flatten ++
    (stage_processing_jsons globEnv stitch_folders).flatten ++
    (stage_processing_jsons globEnv fuse_folders).flatten ++
    (stage_processing_jsons globEnv ccf_folders).flatten

/-- Concrete glob environment with a single provenance fragment, found
under a flatfield channel directory. -/
def globEnvFlatfieldOnly : String → List String :=
  fun pat => if pat = "flat0/metadata/*processing*.json"
    then ["flat0/metadata/flatfield_processing.json"] else []

/-- The provenance-compile call site inside `clean_up` (run_capsule.py
lines 267-275): the call is not wrapped in try/except, so a compile
failure propagates out of `clean_up` and aborts the run; on success the
run continues with the returned output filename. -/
def clean_up_provenance {P : Type} (env : String → FragmentOutcome P)
    (processing_paths : List String) (results_folder : String) :
    Except String (String × List (WriteEvent P)) :=
  match compile_processing_jsons env processing_paths results_folder
      "Camilo Laiton" PIPELINE_VERSION with
  | (.error e, _) => .error e
  | (.ok output_filename, ws) => .ok (output_filename, ws)

/-- The provenance-compile call site inside `copy_intermediate_data`
(run_capsule.py lines 496-508): the call is wrapped in try/except, any
exception is logged and `output_filename` is set to None, and the
function always continues. -/
def copy_intermediate_provenance {P : Type} (env : String → FragmentOutcome P)
    (processing_paths : List String) (output_dispatch_metadata : String) :
    Option String × List (WriteEvent P) :=
  match compile_processing_jsons env processing_paths output_dispatch_metadata
      "Camilo Laiton" PIPELINE_VERSION with
  | (.error _, ws) => (none, ws)
  | (.ok output_filename, ws) => (some output_filename, ws)

/- ### Manifest Fan-Out Dispatcher (run_capsule.py, dispatch) -/

/-- The `segmentation` sub-dictionary of `pipeline_processing`.  The
per-channel keys may be absent before `dispatch` sets them, hence the
Option fields; `extra` stands for the remaining segmentation
parameters, which the shallow copy carries through untouched. -/
structure SegmentationConfig where
  channels : List Int
  input_data : Option String := none
  channel : Option Int := none
  background_channel : Option Int := none
  extra : List (String × String) := []
  deriving DecidableEq

/-- The `quantification` block `dispatch` attaches to each task. -/
structure QuantificationConfig where
  fused_folder : String
  channel : Int
  save_path : String
  deriving DecidableEq

/-- The `registration` sub-dictionary (only its channel list is read
by `dispatch`). -/
structure RegistrationConfig where
  channels : List Int
  deriving DecidableEq

/-- The `pipeline_processing` sub-dictionary of the processing
manifest, restricted to the keys `dispatch` reads or writes;
`quantification` is absent in the incoming manifest and attached per
channel. -/
structure PipelineProcessingConfig where
  registration : RegistrationConfig
  segmentation : SegmentationConfig
  quantification : Option QuantificationConfig := none
  deriving DecidableEq

/-- One per-channel task file written by `dispatch` via
`utils.save_dict_as_json`. -/
structure ChannelTaskFile where
  filename : String
  content : PipelineProcessingConfig
  deriving DecidableEq

/-- The fan-out loop of `dispatch`.  `pipeline_config.copy()` is a
shallow copy, so every iteration's `copy_pipeline_config["segmentation"]`
is the one shared segmentation dict and its mutations persist across
iterations — modelled by threading the segmentation state `seg`
through the recursion.  The `quantification` key is assigned on the
shallow copy itself, so it is fresh in each iteration.  Each iteration
writes a snapshot of the state current at write time. -/
def dispatchLoop (results_folder : String) (pipeline_config : PipelineProcessingConfig)
    (background_channel : Int) (seg : SegmentationConfig) :
    List Int → List ChannelTaskFile
  | [] => []
  | channel_to_segment :: rest =>
    let seg' := { seg with
      input_data := some "../data/fused"
      channel := some channel_to_segment
      background_channel := some background_channel }
    let quant : QuantificationConfig :=
      { fused_folder := "../data/fused"
        channel := channel_to_segment
        save_path := "../results/" }
    { filename := results_folder ++ "/segmentation_processing_manifest_" ++
        toString channel_to_segment ++ ".json"
      content := { pipeline_config with
        segmentation := seg'
        quantification := some quant } }
      :: dispatchLoop results_folder pipeline_config background_channel seg' rest

/-- `dispatch`: `processing_manifest.get("pipeline_processing")` is
None (falsy) when the key is absent, which raises; reading
`registration.channels[0]` raises IndexError on an empty list; an
empty segmentation channel list raises before the loop.  The first
component is the ordered list of task files written, the second the
raised exception's message, if any. -/
def dispatch (processing_manifest : Option PipelineProcessingConfig)
    (results_folder : String) : List ChannelTaskFile × Option String :=
  match processing_manifest with
  | none => ([], some "Stopping pipeline, pipeline configuration.")
  | some pipeline_config =>
    let segment_channels := pipeline_config.segmentation.channels
    match pipeline_config.registration.channels with
    | [] => ([], some "list index out of range")
    | background_channel :: _ =>
      if segment_channels.length = 0 then
        ([], some "Stopping pipeline, no segmentation channels.")
      else
        (dispatchLoop results_folder pipeline_config background_channel
          pipeline_config.segmentation segment_channels, none)

/-- Concrete manifest with segmentation channels [1, 2, 3] and
registration channels headed by 0, used to witness the fan-out claim. -/
def exampleManifest : PipelineProcessingConfig :=
  { registration := { channels := [0, 1] }
    segmentation := { channels := [1, 2, 3] } }

/-- Concrete manifest with a non-empty registration channel list but
no segmentation channels. -/
def exampleManifestNoSeg : PipelineProcessingConfig :=
  { registration := { channels := [0] }
    segmentation := { channels := [] } }

/- ### Required-input validation (utils.py validate_capsule_inputs,
run_capsule.py run lines 821-839)

Filesystem existence is modelled as a predicate `fs : String → Bool`. -/

/-- `validate_capsule_inputs`: walk the required inputs in order and
append each one that does not exist to `missing_inputs`. -/
def validate_capsule_inputs (fs : String → Bool)
    (input_elements : List String) : List String :=
  input_elements.foldl
    (fun missing_inputs p => if fs p then missing_inputs else missing_inputs ++ [p]) []

/-- The `required_input_elements` list `run` builds: first the
dispatch pair, overwritten by the clean pair when `"clean" in mode`. -/
def required_input_elements (data_folder mode : String) : List String :=
  if pyIn "clean" mode then
    [data_folder ++ "/modified_processing_manifest.json",
     data_folder ++ "/input_aind_metadata/data_description.json"]
  else
    [data_folder ++ "/processing_manifest.json",
     data_folder ++ "/input_aind_metadata/data_description.json"]

/-- The input gate at the top of `run`: validate the required inputs
and, when any are missing, raise a ValueError carrying the entire
missing list before any other work is done. -/
def runInputGate (fs : String → Bool) (data_folder mode : String) :
    Except (List String) Unit :=
  let missing_files := validate_capsule_inputs fs
    (required_input_elements data_folder mode)
  if missing_files.length ≠ 0 then .error missing_files else .ok ()

/-- Filesystem on which no path exists. -/
def fsNothing : String → Bool := fun _ => false

/- ### Invocation-argument parsing (run_capsule.py, run lines 803-813)

`params = str(sys.argv[1:])` renders the argument list with Python's
`str`, then strips every bracket character, casefolds, and splits on
commas; `cloud_mode = bool(cloud_mode)` is truthiness of the raw token
string.  The pipeline is embedded character-by-character. -/

/-- The single-quote character Python's `repr` wraps strings in. -/
def singleQuote : Char := Char.ofNat 39

/-- Python's `repr` of a string containing no quote characters. -/
def pyReprStr (s : String) : String :=
  ⟨singleQuote :: s.data ++ [singleQuote]⟩

/-- `", ".join(repr(x) for x in xs)`. -/
def pyStrOfListAux : List String → String
  | [] => ""
  | [x] => pyReprStr x
  | x :: rest => pyReprStr x ++ ", " ++ pyStrOfListAux rest

/-- Python's `str` of a list of strings. -/
def pyStrOfList (xs : List String) : String :=
  "[" ++ pyStrOfListAux xs ++ "]"

/-- Characters surviving `.replace("[", "").replace("]", "")`. -/
def notBracket (ch : Char) : Bool := !(ch == '[' || ch == ']')

/-- `.replace("[", "").replace("]", "")`: drop every bracket char. -/
def removeBrackets (s : String) : String := ⟨s.data.filter notBracket⟩

/-- `.casefold()`, which lowercases the ASCII tokens in play. -/
def pyCaseFold (s : String) : String := ⟨s.data.map Char.toLower⟩

/-- Helper for Python's `str.split(sep)`: cut at every separator,
keeping empty pieces; `acc` holds the current piece reversed. -/
def splitCharAux (sep : Char) : List Char → List Char → List (List Char)
  | [], acc => [acc.reverse]
  | ch :: rest, acc =>
    if ch = sep then acc.reverse :: splitCharAux sep rest []
    else splitCharAux sep rest (ch :: acc)

/-- Python's `s.split(sep)` for a one-character separator. -/
def pySplit (s : String) (sep : Char) : List String :=
  (splitCharAux sep s.data []).map (fun l => ⟨l⟩)

/-- Python's `bool` on a string: true iff non-empty. -/
def pyBool (s : String) : Bool := decide (s ≠ "")

/-- Lines 803-813 of `run`: stringify `sys.argv[1:]`, strip brackets,
casefold, split on commas, require exactly three parts (else the
ValueError handler prints and exits), then take
`cloud_mode = bool(cloud_mode)` on the raw token string. -/
def parseRunParams (argv_tail : List String) :
    Except String (String × Bool × String) :=
  let params := pyCaseFold (removeBrackets (pyStrOfList argv_tail))
  match pySplit params ',' with
  | [mode, cloud_mode, output_path] => .ok (mode, pyBool cloud_mode, output_path)
  | _ => .error "Three parameters are required as input!"

/- ### Visualization Link Builder (run_capsule.py, create_ng_link)

Resolution values ride through untouched; they are embedded as Rat.
The external `NgState` builder is an opaque serialization collaborator;
the descriptor modelled here is the assembled `input_configs` plus the
injected `ng_link` and the output path of the final json dump. -/

/-- `Path(p).name`: the component after the last slash. -/
def pathName (p : String) : String :=
  ⟨p.data.foldl (fun acc ch => if ch = '/' then [] else acc ++ [ch]) []⟩

/-- `Path(p).stem`: the name with its final suffix dropped; a dot at
position 0 or at the very end is not a suffix (pathlib semantics). -/
def pathStem (p : String) : String :=
  let n := (pathName p).data
  match n.reverse.findIdx? (fun ch => ch = '.') with
  | none => ⟨n⟩
  | some revIdx =>
    let i := n.length - 1 - revIdx
    if 0 < i ∧ revIdx ≠ 0 then ⟨n.take i⟩ else ⟨n⟩

/-- `channel_str.split("_")[-1]` applied to `Path(p).stem`. -/
def stemLastToken (p : String) : String :=
  ((splitCharAux '_' (pathStem p).data []).map (fun l => (⟨l⟩ : String))).getLastD ""

/-- Digit accumulation for the embedding of Python's `int(str)`:
all characters must be decimal digits. -/
def digitsToNatAux : List Char → Nat → Option Nat
  | [], acc => some acc
  | d :: rest, acc =>
    if d.isDigit then digitsToNatAux rest (acc * 10 + (d.toNat - 48)) else none

/-- Python's `int(str)`: an optional sign followed by at least one
decimal digit; anything else raises ValueError (None here). -/
def pyInt (s : String) : Option Int :=
  match s.data with
  | [] => none
  | '-' :: rest =>
    if rest.isEmpty then none
    else (digitsToNatAux rest 0).map (fun n => -(n : Int))
  | '+' :: rest =>
    if rest.isEmpty then none
    else (digitsToNatAux rest 0).map (fun n => (n : Int))
  | ds => (digitsToNatAux ds 0).map (fun n => (n : Int))

/-- `hex(n)[2:]` for a natural number: lowercase hex digits. -/
def pyHex (n : Nat) : String := ⟨Nat.toDigits 16 n⟩

/-- One pass of the colors loop of `create_ng_link`: take the numeric
suffix of the path's stem with `int(...)` (ValueError when it is not
numeric) and render `wavelength_to_hex_alternate` of it as
`f"#{str(hex(hex_val))[2:]}"`. -/
def channelColorHex (p : String) : Except String String :=
  match pyInt (stemLastToken p) with
  | some channel => .ok ("#" ++ pyHex (wavelength_to_hex_alternate channel))
  | none => .error ("invalid literal for int() with base 10: " ++ stemLastToken p)

/-- The colors loop of `create_ng_link`, over the sorted paths in
order; the first non-numeric suffix raises. -/
def ngColors : List String → Except String (List String)
  | [] => .ok []
  | p :: rest =>
    match channelColorHex p with
    | .error e => .error e
    | .ok c =>
      match ngColors rest with
      | .error e => .error e
      | .ok cs => .ok (c :: cs)

/-- One visualization layer dict of `create_ng_link`. -/
structure VisualizationLayer where
  source : String
  type : String
  channel : Nat
  name : String
  opacity : Nat
  blend : String
  tab : String
  shader_color : String
  shader_emitter : String
  shader_vec : String
  shader_control_range : Nat × Nat
  deriving DecidableEq

/-- One axis entry of the `dimensions` dict. -/
structure AxisDimension where
  voxel_size : Rat
  unit : String
  deriving DecidableEq

/-- The `dimensions` dict: z, y, x voxel sizes in microns plus the
fixed synthetic time axis. -/
structure NgDimensions where
  z : AxisDimension
  y : AxisDimension
  x : AxisDimension
  t : AxisDimension
  deriving DecidableEq

/-- The `config` dict handed to `create_ng_link`. -/
structure NgConfig where
  bucket_path : String
  output_folder : String
  ng_base_url : String
  z_res : Rat
  y_res : Rat
  x_res : Rat
  deriving DecidableEq

/-- The assembled neuroglancer descriptor: `input_configs` plus the
injected `ng_link` and the json output path. -/
structure NgDescriptor where
  title : String
  dimensions : NgDimensions
  layers : List VisualizationLayer
  cross_section_orientation : List Rat
  cross_section_scale : Nat
  ng_link : String
  output_path : String
  deriving DecidableEq

/-- `create_ng_link`: sort the channel paths lexicographically, map
each to a color (failures in `int(...)` raise, in sorted order), build
one layer per sorted path, extract the subject id as the second
underscore token of the dataset path's basename (IndexError when there
is none), and assemble the descriptor with the fixed orientation,
scale, link and output path.  Python's `sorted` is embedded as
insertion sort with respect to the same lexicographic order. -/
def create_ng_link (config : NgConfig) (s3_channel_paths : List String)
    (s3_dataset_path : String) : Except String NgDescriptor :=
  let sortedPaths := List.insertionSort (· ≤ ·) s3_channel_paths
  match ngColors sortedPaths with
  | .error e => .error e
  | .ok colors =>
    let layers := (sortedPaths.zip colors).map (fun pc =>
      { source := pc.1
        type := "image"
        channel := 0
        name := pathName pc.1
        opacity := 1
        blend := "additive"
        tab := "rendering"
        shader_color := pc.2
        shader_emitter := "RGB"
        shader_vec := "vec3"
        shader_control_range := (0, 200) })
    let nameParts := (splitCharAux '_' (pathName s3_dataset_path).data []).map
      (fun l => (⟨l⟩ : String))
    match nameParts[1]? with
    | none => .error "IndexError: list index out of range"
    | some subject_id =>
      .ok
      { title := subject_id
        dimensions :=
          { z := { voxel_size := config.z_res, unit := "microns" }
            y := { voxel_size := config.y_res, unit := "microns" }
            x := { voxel_size := config.x_res, unit := "microns" }
            t := { voxel_size := 1 / 1000, unit := "seconds" } }
        layers := layers
        cross_section_orientation := [1 / 2, 1 / 2, 1 / 2, -(1 / 2)]
        cross_section_scale := 15
        ng_link := config.ng_base_url ++ "#!" ++ s3_dataset_path ++
          "/neuroglancer_config.json"
        output_path := config.output_folder ++ "/neuroglancer_config.json" }

/-- Concrete image configuration used to witness the layer-order
claim. -/
def ngConfigExample : NgConfig :=
  { bucket_path := "bucket"
    output_folder := "../results"
    ng_base_url := "https://aind-neuroglancer-sauujisjxq-uw.a.run.app"
    z_res := 2
    y_res := 9 / 5
    x_res := 9 / 5 }

/-- When the wavelength is at or above every bound in the table, the
exclusive scan falls through every entry and returns the value of the
last entry (the Python loop's final `hex_val`). -/
theorem colorScanExclusive_all_le (w : Int) :
    ∀ (l : List (Int × Nat)) (last : Nat), (∀ p ∈ l, p.1 ≤ w) →
      colorScanExclusive w last l = (l.map Prod.snd).getLastD last
  | [], _, _ => rfl
  | (ub, hv) :: rest, last, h => by
    have hub : ¬ w < ub := by
      have := h (ub, hv) (List.mem_cons_self _ _)
      simp at this; omega
    rw [colorScanExclusive, if_neg hub, colorScanExclusive_all_le w rest hv
      (fun p hp => h p (List.mem_cons_of_mem _ hp)), List.map_cons, List.getLastD_cons]

/-- Same fall-through behavior for the inclusive scan when the
wavelength is strictly above every bound. -/
theorem colorScanInclusive_all_lt (w : Int) :
    ∀ (l : List (Int × Nat)) (last : Nat), (∀ p ∈ l, p.1 < w) →
      colorScanInclusive w last l = (l.map Prod.snd).getLastD last
  | [], _, _ => rfl
  | (ub, hv) :: rest, last, h => by
    have hub : ¬ w ≤ ub := by
      have := h (ub, hv) (List.mem_cons_self _ _)
      simp at this; omega
    rw [colorScanInclusive, if_neg hub, colorScanInclusive_all_lt w rest hv
      (fun p hp => h p (List.mem_cons_of_mem _ hp)), List.map_cons, List.getLastD_cons]

/-- A wavelength below the first bound takes the first bucket in the
exclusive scan. -/
theorem colorScanExclusive_head_lt (w ub : Int) (hv last : Nat) (rest : List (Int × Nat))
    (h : w < ub) : colorScanExclusive w last ((ub, hv) :: rest) = hv := by
  rw [colorScanExclusive, if_pos h]

/-- Claim C8: boundary semantics of the two wavelength-to-color tables.
Variant A (`wavelength_to_hex`, exclusive bounds) saturates at both
ends: every wavelength at or above 750 maps to the color bound to 750
(0xF00050) and every wavelength below 460 maps to the color bound to
460 (0x690AFE); neither case is an error.  Variant B
(`wavelength_to_hex_alternate`) is inclusive: a wavelength equal to a
table bound yields that bound's own color, a wavelength one past a
bound yields the following bucket's color, and every wavelength above
the last bound (700) yields the last bucket's color (0xA81F1F). -/
theorem claim_C8_color_mapper_boundaries :
    (∀ w : Int, 750 ≤ w →
      wavelength_to_hex w = 0xF00050 ∧ ((750 : Int), 0xF00050) ∈ color_map_exclusive) ∧
    (∀ w : Int, w < 460 →
      wavelength_to_hex w = 0x690AFE ∧ ((460 : Int), 0x690AFE) ∈ color_map_exclusive) ∧
    (∀ p ∈ color_map_inclusive, wavelength_to_hex_alternate p.1 = p.2) ∧
    (∀ pq ∈ color_map_inclusive.zip color_map_inclusive.tail,
      wavelength_to_hex_alternate (pq.1.1 + 1) = pq.2.2) ∧
    (∀ w : Int, 700 < w →
      wavelength_to_hex_alternate w = 0xA81F1F ∧ ((700 : Int), 0xA81F1F) ∈ color_map_inclusive) := by
  have hboundsA : ∀ p ∈ color_map_exclusive, p.1 ≤ 750 := by decide
  have hboundsB : ∀ p ∈ color_map_inclusive, p.1 ≤ 700 := by decide
  refine ⟨fun w hw => ⟨?_, by decide⟩, fun w hw => ⟨?_, by decide⟩, by decide, by decide,
    fun w hw => ⟨?_, by decide⟩⟩
  · rw [wavelength_to_hex,
      colorScanExclusive_all_le w color_map_exclusive 0
        (fun p hp => le_trans (hboundsA p hp) hw)]
    rfl
  · rw [wavelength_to_hex,
      show color_map_exclusive = (460, 0x690AFE) :: color_map_exclusive.tail from rfl,
      colorScanExclusive_head_lt _ _ _ _ _ hw]
  · rw [wavelength_to_hex_alternate,
      colorScanInclusive_all_lt w color_map_inclusive 0
        (fun p hp => lt_of_le_of_lt (hboundsB p hp) hw)]
    rfl

/-- Witness for C8 at concrete wavelengths: 800 and 300 saturate in
Variant A; in Variant B 530 hits its own bound, 531 hits the next
bucket, and 800 hits the last bucket. -/
theorem claim_C8_color_mapper_boundaries_witness :
    wavelength_to_hex 800 = 0xF00050 ∧ wavelength_to_hex 300 = 0x690AFE ∧
    wavelength_to_hex_alternate 530 = 0x92FF42 ∧
    wavelength_to_hex_alternate 531 = 0xE4FE41 ∧
    wavelength_to_hex_alternate 800 = 0xA81F1F :=
  ⟨(claim_C8_color_mapper_boundaries.1 800 (by decide)).1,
   (claim_C8_color_mapper_boundaries.2.1 300 (by decide)).1,
   claim_C8_color_mapper_boundaries.2.2.1 (530, 0x92FF42) (by decide),
   claim_C8_color_mapper_boundaries.2.2.2.1 ((530, 0x92FF42), (540, 0xE4FE41)) (by decide),
   (claim_C8_color_mapper_boundaries.2.2.2.2 800 (by decide)).1⟩

/-- When every path in the list validates, the accumulation loop of
`compile_processing_jsons` returns the accumulator followed by the
concatenation of every fragment's entries, in order. -/
theorem compileDataProcesses_all_ok {P : Type} (env : String → FragmentOutcome P)
    (frag : String → List P) :
    ∀ (paths : List String) (acc : List P),
      (∀ p ∈ paths, env p = .ok (frag p)) →
      compileDataProcesses env acc paths = .ok (acc ++ (paths.map frag).flatten)
  | [], acc, _ => by simp [compileDataProcesses]
  | p :: rest, acc, h => by
    simp only [compileDataProcesses, h p (List.mem_cons_self _ _),
      compileDataProcesses_all_ok env frag rest (acc ++ frag p)
        (fun q hq => h q (List.mem_cons_of_mem _ hq)),
      List.map_cons, List.flatten_cons, List.append_assoc]

/-- If some path in the list fails to read, parse or validate, the
accumulation loop raises. -/
theorem compileDataProcesses_exists_error {P : Type} (env : String → FragmentOutcome P) :
    ∀ (paths : List String) (acc : List P),
      (∃ p ∈ paths, ∃ e, env p = .error e) →
      ∃ e', compileDataProcesses env acc paths = .error e'
  | [], _, h => by simp at h
  | p :: rest, acc, h => by
    cases henv : env p with
    | error e => exact ⟨e, by simp only [compileDataProcesses, henv]⟩
    | ok ps =>
      obtain ⟨q, hq, e, he⟩ := h
      rcases List.mem_cons.mp hq with rfl | hq'
      · rw [henv] at he; cases he
      · obtain ⟨e', h'⟩ :=
          compileDataProcesses_exists_error env rest (acc ++ ps) ⟨q, hq', e, he⟩
        exact ⟨e', by simp only [compileDataProcesses, henv, h']⟩

/-- Claim C1: for every ordered sequence of fragment paths whose
fragments all validate, `compile_processing_jsons` succeeds and the
single document it writes carries exactly the concatenation of every
fragment's process entries — fragment order and within-fragment order
both preserved; in particular the empty sequence yields a document with
zero processes rather than an error. -/
theorem claim_C1_provenance_merge_order {P : Type} (env : String → FragmentOutcome P)
    (frag : String → List P) (paths : List String) (out name ver : String)
    (h : ∀ p ∈ paths, env p = .ok (frag p)) :
    ∃ w : WriteEvent P,
      compile_processing_jsons env paths out name ver = (.ok out, [w]) ∧
      w.directory = out ∧
      w.doc.processing_pipeline.data_processes = (paths.map frag).flatten := by
  have h' := compileDataProcesses_all_ok env frag paths [] h
  rw [List.nil_append] at h'
  exact ⟨generate_processing ((paths.map frag).flatten) out name ver,
    by simp only [compile_processing_jsons, h', generate_processing], rfl, rfl⟩

/-- Witness for C1: fragments A = [10, 11] and B = [20] merge to the
three entries 10, 11, 20 in that order, and the empty fragment list
merges to a document with zero processes. -/
theorem claim_C1_provenance_merge_order_witness :
    (∃ w : WriteEvent Nat,
      compile_processing_jsons envTwoFragments ["A", "B"] "results" "n" "v" =
        (.ok "results", [w]) ∧
      w.directory = "results" ∧
      w.doc.processing_pipeline.data_processes = [10, 11, 20]) ∧
    (∃ w : WriteEvent Nat,
      compile_processing_jsons envTwoFragments [] "results" "n" "v" =
        (.ok "results", [w]) ∧
      w.directory = "results" ∧
      w.doc.processing_pipeline.data_processes = []) := by
  constructor
  · obtain ⟨w, hw, hdir, hdp⟩ := claim_C1_provenance_merge_order envTwoFragments
      fragTwoFragments ["A", "B"] "results" "n" "v" (by intro p hp; fin_cases hp <;> rfl)
    exact ⟨w, hw, hdir, by rw [hdp]; rfl⟩
  · obtain ⟨w, hw, hdir, hdp⟩ := claim_C1_provenance_merge_order envTwoFragments
      fragTwoFragments [] "results" "n" "v" (by simp)
    exact ⟨w, hw, hdir, by rw [hdp]; rfl⟩

/-- Claim C2: if any fragment path in the sequence fails to read, parse
or validate, `compile_processing_jsons` raises and performs no file
write at all — a bad fragment is never skipped and the rest never
merged. -/
theorem claim_C2_provenance_failure_atomicity {P : Type}
    (env : String → FragmentOutcome P) (paths : List String) (p : String)
    (e : String) (out name ver : String) (hp : p ∈ paths)
    (he : env p = .error e) :
    ∃ e', compile_processing_jsons env paths out name ver =
      (.error e', ([] : List (WriteEvent P))) := by
  obtain ⟨e', h⟩ := compileDataProcesses_exists_error env paths [] ⟨p, hp, e, he⟩
  exact ⟨e', by rw [compile_processing_jsons, h]⟩

/-- Witness for C2: a sequence containing the unreadable fragment
"bad" between two good fragments makes the whole merge raise with no
write. -/
theorem claim_C2_provenance_failure_atomicity_witness :
    ∃ e', compile_processing_jsons envTwoFragments ["A", "bad", "B"] "results" "n" "v" =
      (.error e', ([] : List (WriteEvent Nat))) :=
  claim_C2_provenance_failure_atomicity envTwoFragments ["A", "bad", "B"] "bad"
    "unknown" "results" "n" "v" (by decide) rfl

/-- The Python flattening loop appends sublists in order: starting
from any accumulator it produces the accumulator followed by the
concatenation. -/
theorem foldl_append_eq (acc : List String) :
    ∀ combined : List (List String),
      combined.foldl (fun acc l => acc ++ l) acc = acc ++ combined.flatten
  | [] => by simp
  | l :: rest => by
    simp only [List.foldl_cons, foldl_append_eq (acc ++ l) rest,
      List.flatten_cons, List.append_assoc]

/-- `flattenSublists` is concatenation of the sublists in order. -/
theorem flattenSublists_eq_flatten (combined : List (List String)) :
    flattenSublists combined = combined.flatten := by
  rw [flattenSublists, foldl_append_eq, List.nil_append]

/-- Claim C3: when the same fragment failure occurs at both provenance
call sites, `copy_intermediate_data`'s intermediate compile catches it,
substitutes a null `output_filename`, performs no write, and the
function continues, while `clean_up`'s final compile does not catch it
and the failure propagates, aborting the run. -/
theorem claim_C3_asymmetric_provenance_failure {P : Type}
    (env : String → FragmentOutcome P) (paths : List String) (p : String)
    (e : String) (out results : String) (hp : p ∈ paths)
    (he : env p = .error e) :
    copy_intermediate_provenance env paths out = (none, []) ∧
    ∃ e', clean_up_provenance env paths results =
      (.error e' : Except String (String × List (WriteEvent P))) := by
  obtain ⟨e', h⟩ := compileDataProcesses_exists_error env paths [] ⟨p, hp, e, he⟩
  constructor
  · rw [copy_intermediate_provenance, compile_processing_jsons, h]
  · exact ⟨e', by rw [clean_up_provenance, compile_processing_jsons, h]⟩

/-- Witness for C3: with the unreadable fragment "bad" among the
paths, the intermediate call site yields a null result while the final
call site is an error. -/
theorem claim_C3_asymmetric_provenance_failure_witness :
    copy_intermediate_provenance envTwoFragments ["A", "bad"] "meta" = (none, []) ∧
    ∃ e', clean_up_provenance envTwoFragments ["A", "bad"] "results" =
      (.error e' : Except String (String × List (WriteEvent Nat))) :=
  claim_C3_asymmetric_provenance_failure envTwoFragments ["A", "bad"] "bad"
    "unknown" "meta" "results" (by decide) rfl

/-- Claim C4 counterexample: the claim asserts that in dispatch (copy)
mode flatfield fragments come between the destripe and stitch
fragments, but `copy_intermediate_data` never globs the flatfield
channel directories for provenance fragments: with one fragment
present under a flatfield directory and nothing else, the code hands
the compiler an empty sequence while the claimed order contains the
flatfield fragment. -/
theorem claim_C4_counterexample_flatfield_omitted :
    copy_intermediate_processing_paths globEnvFlatfieldOnly [] ["flat0"] [] [] [] ≠
      spec_copy_intermediate_processing_paths globEnvFlatfieldOnly [] ["flat0"] [] [] []
    ∧
    copy_intermediate_processing_paths globEnvFlatfieldOnly [] ["flat0"] [] [] [] = [] := by
  constructor
  · intro h
    have : ([] : List String) = ["flat0/metadata/flatfield_processing.json"] := h
    cases this
  · rfl

/-- Claim C4, amended: the fragment sequence handed to the compiler
is, in clean mode, the raw-metadata stage's processing file, then all
segmentation-stage fragments, then all quantification-stage fragments;
in dispatch (copy) mode it is the destripe files, then the stitch,
fuse and ccf stage fragments in that order — the flatfield directories
contribute no fragments. -/
theorem claim_C4_discovery_order_per_mode (globEnv : String → List String)
    (data_folder : String)
    (cell_folders quantification_folders : List String)
    (destripe_files flatfield_channels : List String)
    (stitch_folders fuse_folders ccf_folders : List String) :
    clean_up_processing_paths globEnv data_folder cell_folders quantification_folders =
      (data_folder ++ "/output_aind_metadata/processing.json") ::
        ((stage_processing_jsons globEnv cell_folders).flatten ++
         (stage_processing_jsons globEnv quantification_folders).flatten) ∧
    copy_intermediate_processing_paths globEnv destripe_files flatfield_channels
        stitch_folders fuse_folders ccf_folders =
      destripe_files ++
        ((stage_processing_jsons globEnv stitch_folders).flatten ++
         (stage_processing_jsons globEnv fuse_folders).flatten ++
         (stage_processing_jsons globEnv ccf_folders).flatten) := by
  constructor
  · rw [clean_up_processing_paths, flattenSublists_eq_flatten]
    simp [List.flatten_append]
  · rw [copy_intermediate_processing_paths, flattenSublists_eq_flatten]
    simp [List.flatten_append]

/-- Claim C5: for a manifest whose `pipeline_processing` is present,
whose segmentation channels are [1, 2, 3] and whose first registration
channel is 0, `dispatch` writes exactly three ChannelTask files, in
channel order, each carrying its own channel in both the segmentation
and quantification blocks, background channel 0, and the same
`input_data` and quantification `fused_folder` in every file. -/
theorem claim_C5_manifest_fan_out (cfg : PipelineProcessingConfig)
    (rest : List Int) (results_folder : String)
    (hseg : cfg.segmentation.channels = [1, 2, 3])
    (hreg : cfg.registration.channels = 0 :: rest) :
    ∃ files, dispatch (some cfg) results_folder = (files, none) ∧
      files.length = 3 ∧
      files.map (fun f => f.content.segmentation.channel) =
        [some 1, some 2, some 3] ∧
      files.map (fun f => f.content.quantification.map QuantificationConfig.channel) =
        [some 1, some 2, some 3] ∧
      (∀ f ∈ files, f.content.segmentation.background_channel = some 0) ∧
      (∀ f ∈ files, f.content.segmentation.input_data = some "../data/fused") ∧
      (∀ f ∈ files,
        f.content.quantification.map QuantificationConfig.fused_folder =
          some "../data/fused") ∧
      files.map ChannelTaskFile.filename =
        [results_folder ++ "/segmentation_processing_manifest_1.json",
         results_folder ++ "/segmentation_processing_manifest_2.json",
         results_folder ++ "/segmentation_processing_manifest_3.json"] := by
  refine ⟨dispatchLoop results_folder cfg 0 cfg.segmentation [1, 2, 3], ?_, ?_⟩
  · rw [dispatch, hreg, hseg]
    rfl
  · simp only [dispatchLoop]
    refine ⟨rfl, rfl, rfl, ?_, ?_, ?_, ?_⟩
    · intro f hf; fin_cases hf <;> rfl
    · intro f hf; fin_cases hf <;> rfl
    · intro f hf; fin_cases hf <;> rfl
    · simp only [List.map_cons, List.map_nil, String.append_assoc]
      rw [show ("/segmentation_processing_manifest_" ++ (toString (1 : Int) ++ ".json")) =
            "/segmentation_processing_manifest_1.json" from rfl,
          show ("/segmentation_processing_manifest_" ++ (toString (2 : Int) ++ ".json")) =
            "/segmentation_processing_manifest_2.json" from rfl,
          show ("/segmentation_processing_manifest_" ++ (toString (3 : Int) ++ ".json")) =
            "/segmentation_processing_manifest_3.json" from rfl]

/-- Witness for C5 on the concrete `exampleManifest`. -/
theorem claim_C5_manifest_fan_out_witness :
    ∃ files, dispatch (some exampleManifest) "../results" = (files, none) ∧
      files.length = 3 ∧
      files.map (fun f => f.content.segmentation.channel) =
        [some 1, some 2, some 3] ∧
      files.map (fun f => f.content.quantification.map QuantificationConfig.channel) =
        [some 1, some 2, some 3] ∧
      (∀ f ∈ files, f.content.segmentation.background_channel = some 0) ∧
      (∀ f ∈ files, f.content.segmentation.input_data = some "../data/fused") ∧
      (∀ f ∈ files,
        f.content.quantification.map QuantificationConfig.fused_folder =
          some "../data/fused") ∧
      files.map ChannelTaskFile.filename =
        ["../results" ++ "/segmentation_processing_manifest_1.json",
         "../results" ++ "/segmentation_processing_manifest_2.json",
         "../results" ++ "/segmentation_processing_manifest_3.json"] :=
  claim_C5_manifest_fan_out exampleManifest [1] "../results" rfl rfl

/-- Claim C6: a manifest whose `pipeline_processing` is present, whose
registration channel list is non-empty but whose segmentation channel
list is empty makes `dispatch` raise the "no segmentation channels"
error with no ChannelTask file written at all. -/
theorem claim_C6_fan_out_precondition (cfg : PipelineProcessingConfig)
    (r : Int) (rest : List Int) (results_folder : String)
    (hseg : cfg.segmentation.channels = [])
    (hreg : cfg.registration.channels = r :: rest) :
    dispatch (some cfg) results_folder =
      ([], some "Stopping pipeline, no segmentation channels.") := by
  rw [dispatch, hreg, hseg]
  rfl

/-- Witness for C6 on the concrete `exampleManifestNoSeg`. -/
theorem claim_C6_fan_out_precondition_witness :
    dispatch (some exampleManifestNoSeg) "../results" =
      ([], some "Stopping pipeline, no segmentation channels.") :=
  claim_C6_fan_out_precondition exampleManifestNoSeg 0 [] "../results" rfl rfl

/-- The missing-input accumulation loop is an order-preserving filter. -/
theorem validate_foldl (fs : String → Bool) :
    ∀ (l acc : List String),
      l.foldl (fun m p => if fs p then m else m ++ [p]) acc =
        acc ++ l.filter (fun p => !fs p)
  | [], acc => by simp
  | p :: rest, acc => by
    cases h : fs p with
    | true => simp [h, validate_foldl fs rest acc]
    | false => simp [h, validate_foldl fs rest (acc ++ [p])]

/-- Claim C9: `validate_capsule_inputs` returns exactly the sublist of
required inputs that do not exist, in input order, and the gate at the
top of `run` aborts with an error carrying that entire missing list at
once (not just the first missing file) before any work is done. -/
theorem claim_C9_missing_input_enumeration (fs : String → Bool)
    (inputs : List String) (data_folder mode : String) :
    validate_capsule_inputs fs inputs = inputs.filter (fun p => !fs p) ∧
    (validate_capsule_inputs fs inputs).Sublist inputs ∧
    (∀ p, p ∈ validate_capsule_inputs fs inputs ↔ p ∈ inputs ∧ fs p = false) ∧
    ((∃ p ∈ required_input_elements data_folder mode, fs p = false) →
      runInputGate fs data_folder mode =
        .error ((required_input_elements data_folder mode).filter (fun p => !fs p))) := by
  have h1 : ∀ l, validate_capsule_inputs fs l = l.filter (fun p => !fs p) := by
    intro l
    rw [validate_capsule_inputs, validate_foldl, List.nil_append]
  refine ⟨h1 inputs, ?_, ?_, ?_⟩
  · rw [h1]
    exact List.filter_sublist _
  · intro p
    rw [h1, List.mem_filter]
    simp [Bool.not_eq_true']
  · rintro ⟨p, hp, hfs⟩
    have hmem : p ∈ (required_input_elements data_folder mode).filter
        (fun q => !fs q) :=
      List.mem_filter.mpr ⟨hp, by rw [hfs]; rfl⟩
    have hlen : ((required_input_elements data_folder mode).filter
        (fun q => !fs q)).length ≠ 0 := by
      intro h0
      rw [List.length_eq_zero] at h0
      rw [h0] at hmem
      cases hmem
    simp only [runInputGate, h1]
    rw [if_pos hlen]

/-- Witness for C9: with no file present, the two dispatch-mode
required inputs are both reported missing, in order, in one error. -/
theorem claim_C9_missing_input_enumeration_witness :
    validate_capsule_inputs fsNothing ["p", "q"] = ["p", "q"] ∧
    runInputGate fsNothing "/data" "dispatch" =
      .error ["/data/processing_manifest.json",
              "/data/input_aind_metadata/data_description.json"] := by
  have h := claim_C9_missing_input_enumeration fsNothing ["p", "q"] "/data" "dispatch"
  refine ⟨h.1.trans (by rfl), ?_⟩
  have h2 := h.2.2.2 ⟨"/data/processing_manifest.json", by decide, rfl⟩
  exact h2.trans (by rfl)

/-- `Char.toLower` (the embedding of `casefold` on the ASCII tokens in
play) never turns a non-comma character into a comma. -/
theorem toLower_ne_comma (ch : Char) (h : ch ≠ ',') : Char.toLower ch ≠ ',' := by
  rw [Char.toLower]
  split
  · rename_i hn
    intro hcm
    have h44 : (Char.ofNat (ch.toNat + 32)).toNat = (',' : Char).toNat :=
      congrArg Char.toNat hcm
    have hv : (ch.toNat + 32).isValidChar := Or.inl (by omega)
    rw [Char.ofNat, dif_pos hv] at h44
    have heq : (Char.ofNatAux (ch.toNat + 32) hv).toNat = ch.toNat + 32 := rfl
    rw [heq] at h44
    have h2 : (',' : Char).toNat = 44 := rfl
    omega
  · exact h

/-- Splitting a separator-free piece yields that single piece. -/
theorem splitCharAux_no_sep (sep : Char) :
    ∀ (l acc : List Char), (∀ ch ∈ l, ch ≠ sep) →
      splitCharAux sep l acc = [acc.reverse ++ l]
  | [], acc, _ => by simp [splitCharAux]
  | ch :: rest, acc, h => by
    rw [splitCharAux, if_neg (h ch (List.mem_cons_self _ _)),
      splitCharAux_no_sep sep rest (ch :: acc)
        (fun d hd => h d (List.mem_cons_of_mem _ hd))]
    simp

/-- Splitting cuts at the first separator after a separator-free
piece. -/
theorem splitCharAux_sep (sep : Char) :
    ∀ (l₁ l₂ acc : List Char), (∀ ch ∈ l₁, ch ≠ sep) →
      splitCharAux sep (l₁ ++ sep :: l₂) acc =
        (acc.reverse ++ l₁) :: splitCharAux sep l₂ []
  | [], _, acc, _ => by simp [splitCharAux]
  | ch :: rest, l₂, acc, h => by
    rw [List.cons_append, splitCharAux, if_neg (h ch (List.mem_cons_self _ _)),
      splitCharAux_sep sep rest l₂ (ch :: acc)
        (fun d hd => h d (List.mem_cons_of_mem _ hd))]
    simp

/-- Claim C10: `cloud_mode = bool(cloud_mode)` tests truthiness of the
raw token string, which after `str(sys.argv[1:])` still carries a
leading space and the repr quotes; so every well-formed three-token
invocation — tokens free of commas, second token non-empty, including
the documented token "false" — parses with `cloud_mode = True`, and
the cloud/local branches of `clean_up` and `copy_intermediate_data`
always receive True through this surface. -/
theorem claim_C10_cloud_mode_truthiness (a b c : String)
    (ha : ',' ∉ a.data) (hb : ',' ∉ b.data) (hc : ',' ∉ c.data)
    (_hbne : b ≠ "") :
    ∃ mode output_path,
      parseRunParams [a, b, c] = .ok (mode, true, output_path) := by
  have hdata : (pyCaseFold (removeBrackets (pyStrOfList [a, b, c]))).data =
      (singleQuote :: (a.data.filter notBracket).map Char.toLower ++ [singleQuote]) ++
      ',' :: ((' ' :: singleQuote :: (b.data.filter notBracket).map Char.toLower ++
        [singleQuote]) ++
      ',' :: (' ' :: singleQuote :: (c.data.filter notBracket).map Char.toLower ++
        [singleQuote])) := by
    have e1 : notBracket (Char.ofNat 39) = true := by decide
    have e2 : notBracket ',' = true := by decide
    have e3 : notBracket ' ' = true := by decide
    have e4 : notBracket '[' = false := by decide
    have e5 : notBracket ']' = false := by decide
    have e6 : Char.toLower (Char.ofNat 39) = Char.ofNat 39 := by decide
    have e7 : Char.toLower ',' = ',' := by decide
    have e8 : Char.toLower ' ' = ' ' := by decide
    simp [pyCaseFold, removeBrackets, pyStrOfList, pyStrOfListAux, pyReprStr,
      List.filter_append, List.map_append, List.filter_cons, List.map_cons, singleQuote,
      e1, e2, e3, e4, e5, e6, e7, e8]
  have hq : singleQuote ≠ ',' := by decide
  have hmem : ∀ (s : String), ',' ∉ s.data →
      ∀ ch ∈ (s.data.filter notBracket).map Char.toLower, ch ≠ ',' := by
    intro s hs ch hch
    obtain ⟨d, hd, rfl⟩ := List.mem_map.mp hch
    exact toLower_ne_comma d (fun hdc => hs (hdc ▸ List.mem_of_mem_filter hd))
  have hnc_a : ∀ ch ∈ singleQuote :: (a.data.filter notBracket).map Char.toLower ++
      [singleQuote], ch ≠ ',' := by
    intro ch hch
    rcases List.mem_cons.mp hch with rfl | hch'
    · exact hq
    · rcases List.mem_append.mp hch' with h1 | h1
      · exact hmem a ha ch h1
      · simp at h1; subst h1; exact hq
  have hnc_b : ∀ ch ∈ ' ' :: singleQuote ::
      (b.data.filter notBracket).map Char.toLower ++ [singleQuote], ch ≠ ',' := by
    intro ch hch
    rcases List.mem_cons.mp hch with rfl | hch'
    · decide
    · rcases List.mem_cons.mp hch' with rfl | hch''
      · exact hq
      · rcases List.mem_append.mp hch'' with h1 | h1
        · exact hmem b hb ch h1
        · simp at h1; subst h1; exact hq
  have hnc_c : ∀ ch ∈ ' ' :: singleQuote ::
      (c.data.filter notBracket).map Char.toLower ++ [singleQuote], ch ≠ ',' := by
    intro ch hch
    rcases List.mem_cons.mp hch with rfl | hch'
    · decide
    · rcases List.mem_cons.mp hch' with rfl | hch''
      · exact hq
      · rcases List.mem_append.mp hch'' with h1 | h1
        · exact hmem c hc ch h1
        · simp at h1; subst h1; exact hq
  refine ⟨⟨singleQuote :: (a.data.filter notBracket).map Char.toLower ++
      [singleQuote]⟩,
    ⟨' ' :: singleQuote :: (c.data.filter notBracket).map Char.toLower ++
      [singleQuote]⟩, ?_⟩
  rw [parseRunParams, pySplit, hdata,
    splitCharAux_sep ',' _ _ [] hnc_a,
    splitCharAux_sep ',' _ _ [] hnc_b,
    splitCharAux_no_sep ',' _ [] hnc_c]
  simp only [List.reverse_nil, List.nil_append, List.map_cons, List.map_nil]
  have hpb : pyBool ⟨' ' :: singleQuote ::
      (b.data.filter notBracket).map Char.toLower ++ [singleQuote]⟩ = true := by
    rw [pyBool, decide_eq_true_eq]
    intro hemp
    have := congrArg String.data hemp
    simp at this
  rw [hpb]

/-- Witness for C10: the documented invocation tokens
"dispatch", "false", "bucket/path" parse with cloud_mode = True. -/
theorem claim_C10_cloud_mode_truthiness_witness :
    ∃ mode output_path,
      parseRunParams ["dispatch", "false", "bucket/path"] =
        .ok (mode, true, output_path) :=
  claim_C10_cloud_mode_truthiness "dispatch" "false" "bucket/path"
    (by decide) (by decide) (by decide) (by decide)

/-- When the colors loop succeeds it yields one color per path, and
pairwise each color is the one computed from its own path. -/
theorem ngColors_spec :
    ∀ (paths colors : List String), ngColors paths = .ok colors →
      colors.length = paths.length ∧
      ∀ pc ∈ paths.zip colors, channelColorHex pc.1 = .ok pc.2
  | [], colors, h => by
    rw [ngColors] at h
    cases h
    simp
  | p :: rest, colors, h => by
    rw [ngColors] at h
    cases h1 : channelColorHex p with
    | error e => rw [h1] at h; cases h
    | ok c =>
      rw [h1] at h
      cases h2 : ngColors rest with
      | error e => rw [h2] at h; cases h
      | ok cs =>
        rw [h2] at h
        cases h
        obtain ⟨ihlen, ihmem⟩ := ngColors_spec rest cs h2
        refine ⟨by simp [ihlen], ?_⟩
        intro pc hpc
        rw [List.zip_cons_cons] at hpc
        rcases List.mem_cons.mp hpc with rfl | hpc'
        · exact h1
        · exact ihmem pc hpc'

/-- Claim C7: `create_ng_link` gives the same descriptor for every
permutation of the channel paths; its layers are in lexicographic
(string) order of the paths, and each layer's color is the
deterministic `channelColorHex` image of its own path (the numeric
suffix of the stem fed to the Variant B mapper) — identical across
repeated runs since the embedding is a pure function. -/
theorem claim_C7_ng_layer_order (config : NgConfig)
    (paths paths' : List String) (s3_dataset_path : String)
    (hperm : paths.Perm paths') :
    create_ng_link config paths s3_dataset_path =
      create_ng_link config paths' s3_dataset_path ∧
    ∀ d, create_ng_link config paths s3_dataset_path = .ok d →
      (d.layers.map VisualizationLayer.source).Sorted (· ≤ ·) ∧
      d.layers.map VisualizationLayer.source =
        List.insertionSort (· ≤ ·) paths ∧
      ∀ l ∈ d.layers, channelColorHex l.source = .ok l.shader_color := by
  have hsort : List.insertionSort (· ≤ ·) paths =
      List.insertionSort (· ≤ ·) paths' :=
    List.eq_of_perm_of_sorted
      ((List.perm_insertionSort _ _).trans
        (hperm.trans (List.perm_insertionSort _ _).symm))
      (List.sorted_insertionSort _ _) (List.sorted_insertionSort _ _)
  constructor
  · simp only [create_ng_link, hsort]
  · intro d hd
    simp only [create_ng_link] at hd
    cases h1 : ngColors (List.insertionSort (· ≤ ·) paths) with
    | error e => rw [h1] at hd; cases hd
    | ok colors =>
      rw [h1] at hd
      cases h2 : ((splitCharAux '_' (pathName s3_dataset_path).data []).map
          (fun l => (⟨l⟩ : String)))[1]? with
      | none => rw [h2] at hd; cases hd
      | some subject_id =>
        rw [h2] at hd
        rw [Except.ok.injEq] at hd
        subst hd
        have hlen := (ngColors_spec _ _ h1).1
        have hfst : ((List.insertionSort (· ≤ ·) paths).zip colors).map Prod.fst =
            List.insertionSort (· ≤ ·) paths :=
          List.map_fst_zip _ _ (le_of_eq hlen.symm)
        have hsources :
            (((List.insertionSort (· ≤ ·) paths).zip colors).map (fun pc =>
              ({ source := pc.1, type := "image", channel := 0, name := pathName pc.1,
                 opacity := 1, blend := "additive", tab := "rendering",
                 shader_color := pc.2, shader_emitter := "RGB", shader_vec := "vec3",
                 shader_control_range := (0, 200) } : VisualizationLayer))).map
              VisualizationLayer.source = List.insertionSort (· ≤ ·) paths := by
          rw [List.map_map]
          exact hfst
        refine ⟨?_, hsources, ?_⟩
        · rw [hsources]
          exact List.sorted_insertionSort _ _
        · intro l hl
          obtain ⟨pc, hpc, rfl⟩ := List.mem_map.mp hl
          exact (ngColors_spec _ _ h1).2 pc hpc

/-- Witness for C7: the two fused-channel paths given in either order
produce the same descriptor, with the 488 layer before the 600 layer. -/
theorem claim_C7_ng_layer_order_witness :
    create_ng_link ngConfigExample
        ["s3://b/OMEZarr/Ex_600_Em_620.zarr", "s3://b/OMEZarr/Ex_488_Em_525.zarr"]
        "s3://b/SmartSPIM_123_stitched" =
      create_ng_link ngConfigExample
        ["s3://b/OMEZarr/Ex_488_Em_525.zarr", "s3://b/OMEZarr/Ex_600_Em_620.zarr"]
        "s3://b/SmartSPIM_123_stitched" ∧
    (create_ng_link ngConfigExample
        ["s3://b/OMEZarr/Ex_600_Em_620.zarr", "s3://b/OMEZarr/Ex_488_Em_525.zarr"]
        "s3://b/SmartSPIM_123_stitched").map
      (fun d => d.layers.map VisualizationLayer.source) =
      .ok ["s3://b/OMEZarr/Ex_488_Em_525.zarr", "s3://b/OMEZarr/Ex_600_Em_620.zarr"] := by
  have h := claim_C7_ng_layer_order ngConfigExample
    ["s3://b/OMEZarr/Ex_600_Em_620.zarr", "s3://b/OMEZarr/Ex_488_Em_525.zarr"]
    ["s3://b/OMEZarr/Ex_488_Em_525.zarr", "s3://b/OMEZarr/Ex_600_Em_620.zarr"]
    "s3://b/SmartSPIM_123_stitched" (List.Perm.swap _ _ _)
  refine ⟨h.1, ?_⟩
  have hnot : ¬ (("s3://b/OMEZarr/Ex_600_Em_620.zarr" : String) ≤
      "s3://b/OMEZarr/Ex_488_Em_525.zarr") := by
    rw [String.le_iff_toList_le]
    decide
  have hs : List.insertionSort (· ≤ ·)
      ["s3://b/OMEZarr/Ex_600_Em_620.zarr", "s3://b/OMEZarr/Ex_488_Em_525.zarr"] =
      ["s3://b/OMEZarr/Ex_488_Em_525.zarr", "s3://b/OMEZarr/Ex_600_Em_620.zarr"] := by
    simp [List.insertionSort, List.orderedInsert, hnot]
  simp only [create_ng_link, hs]
  rfl

end SmartspimDispatcher
